import Mathlib

/-!
Verification of the Matching & Distance-Caching subsystem of the
Group-9 volunteer/event web application (Python backend).

The definitions below are a shallow embedding of the relevant Python
source files:

* `backend/app/routes/match.py` — scoring engine and the `/match`
  coordinator (`calculate_distance`, `calculate_skill_match`,
  `calculate_urgency_score`, `calculate_match_score`,
  `match_volunteer_to_events`);
* `backend/app/utils/distance_db.py` — the distance cache
  (`DistanceCache.generate_cache_key`, `get_cached_distance`,
  `save_distance_calculation`, `delete_cached_distance`,
  `calculate_and_cache_distance`, `get_nearby_events_for_user`);
* `backend/app/utils/distance.py` — `get_user_full_address` and the
  Google-Maps resolver boundary (modelled as an oracle function, since
  the network call itself is I/O).

Python floats are modelled as `ℚ`; wall-clock timestamps as `ℤ`
seconds; the database tables as explicit lists threaded through the
functions; raised `HTTPException`s as `Except` errors.  Python's
process-seeded builtin `hash` is modelled as an arbitrary function
parameter `String → ℤ`.
-/

namespace Group9

/-! ## Python string primitives

`str.lower` / `str.strip` are modelled character-wise (ASCII case
folding, ASCII whitespace), because the addresses and skill tags in
this application are ASCII.  `Char.toLower` performs exactly the ASCII
case folding for such characters. -/

def isSpaceChar (c : Char) : Bool :=
  c = ' ' || c = '\t' || c = '\n' || c = '\r' || c = '\x0b' || c = '\x0c'

/-- Model of Python `str.lower()`. -/
def pyLowerStr (s : String) : String := ⟨s.data.map Char.toLower⟩

/-- Model of Python `str.strip()`: drop leading and trailing whitespace. -/
def pyStrip (s : String) : String :=
  ⟨((s.data.dropWhile isSpaceChar).reverse.dropWhile isSpaceChar).reverse⟩

/-- Composition `s.lower().strip()` used when normalizing a cache-key address. -/
def pyNormalize (s : String) : String := pyStrip (pyLowerStr s)

/-- Model of Python `round(x, 2)`: round to two decimal places.  (Binary
floating point and banker's rounding are idealized away; every value the
claims evaluate is exactly representable.) -/
def round2 (q : ℚ) : ℚ := (round (q * 100) : ℚ) / 100

theorem round2_intCast (n : ℤ) : round2 ((n : ℚ)) = (n : ℚ) := by
  have h : ((n : ℚ) * 100) = (((n * 100 : ℤ)) : ℚ) := by push_cast; ring
  rw [round2, h, round_intCast]
  push_cast
  ring

/-! ## ScoringEngine (`backend/app/routes/match.py`) -/

/-- match.py `calculate_urgency_score`: dictionary lookup
`{"high": 1.0, "medium": 0.6, "low": 0.3}.get(urgency.lower(), 0.0)`. -/
def calculate_urgency_score (urgency : String) : ℚ :=
  if pyLowerStr urgency = "high" then 1
  else if pyLowerStr urgency = "medium" then 3/5
  else if pyLowerStr urgency = "low" then 3/10
  else 0

/-- match.py line 91 (inside `calculate_match_score`):
`distance_score = max(0, 1 - (distance / 50))`.  The 50-mile horizon is
hard-coded at this call site. -/
def distance_score (distance : ℚ) : ℚ := max 0 (1 - distance / 50)

/-- match.py `calculate_match_score`. -/
def calculate_match_score (skill_match distance : ℚ) (urgency : String)
    (skill_weight distance_weight urgency_weight : ℚ) : ℚ :=
  let skill_score := skill_match / 100
  let urgency_score := calculate_urgency_score urgency
  round2 ((skill_score * skill_weight + distance_score distance * distance_weight
    + urgency_score * urgency_weight) * 100)

/-- match.py `calculate_skill_match`: Python `set` intersections are
modelled with `Finset`, after lowercasing both skill lists. -/
def calculate_skill_match (user_skills event_skills : List String) : ℚ :=
  if event_skills = [] then 0
  else
    let user_skills_set := (user_skills.map pyLowerStr).toFinset
    let event_skills_set := (event_skills.map pyLowerStr).toFinset
    (((user_skills_set ∩ event_skills_set).card : ℚ) / (event_skills_set.card : ℚ)) * 100

/-- match.py `calculate_distance`, offline branch (lines 34-39, taken when
no Google-Maps credential is configured): a pseudo-distance computed from
Python's builtin `hash` of the concatenated address strings.  The builtin
hash is process-seeded and unspecified, so it is passed as a parameter. -/
def calculate_distance_fallback (pyhash : String → ℤ) (origin destination : String) : ℚ :=
  let hash_value : ℤ := |pyhash (origin ++ destination)|
  round2 (((hash_value % 25 : ℤ) : ℚ) + 1)

/-! ## Spec-side scoring definitions

These restate the formulas in the specification's own words (spec §4.3 /
§8); the claims compare them with the code-derived definitions above. -/

/-- Spec §4.3 `urgencyScore`: high→1.0, medium→0.6, low→0.3,
anything else (case-insensitive) → 0.0. -/
def spec_urgencyScore (level : String) : ℚ :=
  if pyLowerStr level = "high" then 1
  else if pyLowerStr level = "medium" then 3/5
  else if pyLowerStr level = "low" then 3/10
  else 0

/-- Spec §4.3 `distanceScore(distanceMiles, maxDistanceMiles)`:
`max(0, 1 - distanceMiles/maxDistanceMiles)`. -/
def spec_distanceScore (distanceMiles maxDistanceMiles : ℚ) : ℚ :=
  max 0 (1 - distanceMiles / maxDistanceMiles)

/-- Spec §4.3 `skillMatchPercent`: size of the case-insensitive
intersection of the two skill lists divided by the number of distinct
required skills, times 100; `0` when there are no required skills.
Stated over deduplicated lists rather than `Finset`s. -/
def spec_skillMatchPercent (subjectSkills requiredSkills : List String) : ℚ :=
  if requiredSkills = [] then 0
  else
    let req := (requiredSkills.map pyLowerStr).dedup
    let inter := (subjectSkills.map pyLowerStr).dedup.filter (fun s => decide (s ∈ req))
    ((inter.length : ℚ) / (req.length : ℚ)) * 100

/-! ## MD5 (RFC 1321) and the cache key

`DistanceCache.generate_cache_key` hashes the normalized address pair
with `hashlib.md5(..).hexdigest()`.  MD5 is implemented here over `Nat`
with explicit reduction modulo `2^32`. -/

def w32 (n : Nat) : Nat := n % 4294967296

def wnot (x : Nat) : Nat := 4294967295 - w32 x

def rotl (x s : Nat) : Nat := w32 (w32 x <<< s) ||| (w32 x >>> (32 - s))

/-- The 64 MD5 sine-table constants `T[i] = floor(2^32 * |sin(i+1)|)`. -/
def md5K : List Nat :=
  [0xd76aa478, 0xe8c7b756, 0x242070db, 0xc1bdceee,
   0xf57c0faf, 0x4787c62a, 0xa8304613, 0xfd469501,
   0x698098d8, 0x8b44f7af, 0xffff5bb1, 0x895cd7be,
   0x6b901122, 0xfd987193, 0xa679438e, 0x49b40821,
   0xf61e2562, 0xc040b340, 0x265e5a51, 0xe9b6c7aa,
   0xd62f105d, 0x02441453, 0xd8a1e681, 0xe7d3fbc8,
   0x21e1cde6, 0xc33707d6, 0xf4d50d87, 0x455a14ed,
   0xa9e3e905, 0xfcefa3f8, 0x676f02d9, 0x8d2a4c8a,
   0xfffa3942, 0x8771f681, 0x6d9d6122, 0xfde5380c,
   0xa4beea44, 0x4bdecfa9, 0xf6bb4b60, 0xbebfbc70,
   0x289b7ec6, 0xeaa127fa, 0xd4ef3085, 0x04881d05,
   0xd9d4d039, 0xe6db99e5, 0x1fa27cf8, 0xc4ac5665,
   0xf4292244, 0x432aff97, 0xab9423a7, 0xfc93a039,
   0x655b59c3, 0x8f0ccc92, 0xffeff47d, 0x85845dd1,
   0x6fa87e4f, 0xfe2ce6e0, 0xa3014314, 0x4e0811a1,
   0xf7537e82, 0xbd3af235, 0x2ad7d2bb, 0xeb86d391]

/-- The 64 per-round left-rotation amounts. -/
def md5S : List Nat :=
  [7, 12, 17, 22, 7, 12, 17, 22, 7, 12, 17, 22, 7, 12, 17, 22,
   5,  9, 14, 20, 5,  9, 14, 20, 5,  9, 14, 20, 5,  9, 14, 20,
   4, 11, 16, 23, 4, 11, 16, 23, 4, 11, 16, 23, 4, 11, 16, 23,
   6, 10, 15, 21, 6, 10, 15, 21, 6, 10, 15, 21, 6, 10, 15, 21]

/-- UTF-8 encoding of one character (Python `str.encode()`). -/
def utf8Bytes (c : Char) : List Nat :=
  let n := c.toNat
  if n < 128 then [n]
  else if n < 2048 then [192 + n / 64, 128 + n % 64]
  else if n < 65536 then [224 + n / 4096, 128 + (n / 64) % 64, 128 + n % 64]
  else [240 + n / 262144, 128 + (n / 4096) % 64, 128 + (n / 64) % 64, 128 + n % 64]

def strBytes (s : String) : List Nat :=
  s.data.foldr (fun c acc => utf8Bytes c ++ acc) []

/-- The eight little-endian bytes of the 64-bit message bit length. -/
def md5LenBytes (len : Nat) : List Nat :=
  (List.range 8).map (fun i => (8 * len) / (256 ^ i) % 256)

/-- MD5 padding: a `0x80` byte, zeros to 56 mod 64, then the bit length. -/
def md5Pad (msg : List Nat) : List Nat :=
  msg ++ [128] ++ List.replicate ((56 + 64 - (msg.length + 1) % 64) % 64) 0
    ++ md5LenBytes msg.length

def chunks64 (l : List Nat) : List (List Nat) :=
  if h : l = [] then [] else l.take 64 :: chunks64 (l.drop 64)
termination_by l.length
decreasing_by
  simp only [List.length_drop]
  have := List.length_pos.mpr h
  omega

/-- Little-endian 32-bit word `j` of a 64-byte chunk. -/
def md5Word (chunk : List Nat) (j : Nat) : Nat :=
  chunk.getD (4 * j) 0 + 256 * chunk.getD (4 * j + 1) 0
    + 65536 * chunk.getD (4 * j + 2) 0 + 16777216 * chunk.getD (4 * j + 3) 0

def md5Step (chunk : List Nat) (st : Nat × Nat × Nat × Nat) (i : Nat) :
    Nat × Nat × Nat × Nat :=
  let (a, b, c, d) := st
  let fg : Nat × Nat :=
    if i < 16 then ((b &&& c) ||| (wnot b &&& d), i)
    else if i < 32 then ((d &&& b) ||| (wnot d &&& c), (5 * i + 1) % 16)
    else if i < 48 then (b ^^^ c ^^^ d, (3 * i + 5) % 16)
    else (c ^^^ (b ||| wnot d), (7 * i) % 16)
  let f := w32 (fg.1 + a + md5K.getD i 0 + md5Word chunk fg.2)
  (d, w32 (b + rotl f (md5S.getD i 0)), b, c)

def md5Chunk (st : Nat × Nat × Nat × Nat) (chunk : List Nat) :
    Nat × Nat × Nat × Nat :=
  let r := (List.range 64).foldl (md5Step chunk) st
  (w32 (st.1 + r.1), w32 (st.2.1 + r.2.1), w32 (st.2.2.1 + r.2.2.1), w32 (st.2.2.2 + r.2.2.2))

def hexDigit (n : Nat) : Char :=
  if n < 10 then Char.ofNat (48 + n) else Char.ofNat (87 + n % 16)

def byteHex (b : Nat) : List Char := [hexDigit (b / 16 % 16), hexDigit (b % 16)]

def wordBytesLE (x : Nat) : List Nat :=
  [x % 256, x / 256 % 256, x / 65536 % 256, x / 16777216 % 256]

/-- `hashlib.md5(s.encode()).hexdigest()`. -/
def md5hex (s : String) : String :=
  let msg := md5Pad (strBytes s)
  let r := (chunks64 msg).foldl md5Chunk (0x67452301, 0xefcdab89, 0x98badcfe, 0x10325476)
  ⟨(wordBytesLE r.1 ++ wordBytesLE r.2.1 ++ wordBytesLE r.2.2.1 ++ wordBytesLE r.2.2.2).foldr
      (fun b acc => byteHex b ++ acc) []⟩

/-- The string that `generate_cache_key` feeds to MD5:
`f"{origin_address.lower().strip()}|{destination_address.lower().strip()}"`. -/
def cache_key_input (origin_address destination_address : String) : String :=
  pyNormalize origin_address ++ "|" ++ pyNormalize destination_address

/-- distance_db.py `DistanceCache.generate_cache_key`. -/
def generate_cache_key (origin_address destination_address : String) : String :=
  md5hex (cache_key_input origin_address destination_address)

/-! ## DistanceCache state model (`backend/app/utils/distance_db.py`)

The `distance_cache` table is modelled as a list of rows threaded in and
out of each operation; `datetime.now()` is an explicit `now : ℤ`
(seconds).  `timedelta(hours=24)` is `ttlSeconds`. -/

structure CacheEntry where
  user_id : String
  event_id : String
  origin_address : String
  destination_address : String
  distance_text : String
  distance_value : ℚ
  duration_text : String
  duration_value : ℚ
  calculated_at : ℤ
deriving DecidableEq

/-- The `.eq("user_id", u).eq("event_id", e)` row filter. -/
def entryMatches (u e : String) (c : CacheEntry) : Bool :=
  c.user_id = u && c.event_id = e

def ttlSeconds : ℤ := 24 * 3600

/-- distance_db.py `DistanceCache.delete_cached_distance`: delete every
row of the pair. -/
def delete_cached_distance (u e : String) (st : List CacheEntry) : List CacheEntry :=
  st.filter (fun c => !entryMatches u e c)

/-- distance_db.py `DistanceCache.get_cached_distance`: return the first
row for the pair if it is younger than 24 hours; on an expired row,
delete the pair's rows (lazy eviction) and report a miss.  The result is
the returned value paired with the table state after the call. -/
def get_cached_distance (now : ℤ) (u e : String) (st : List CacheEntry) :
    Option CacheEntry × List CacheEntry :=
  match st.filter (entryMatches u e) with
  | [] => (none, st)
  | c :: _ =>
    if now - c.calculated_at < ttlSeconds then (some c, st)
    else (none, delete_cached_distance u e st)

/-- The resolver's distance/duration payload (`distance.py`
`DistanceCalculator.calculate_distance` result, flattened). -/
structure DistanceResult where
  distance_text : String
  distance_value : ℚ
  duration_text : String
  duration_value : ℚ
deriving DecidableEq

/-- distance_db.py `DistanceCache.save_distance_calculation`: upsert on
conflict `(user_id, event_id)` — the pair's old rows are replaced. -/
def save_distance_calculation (now : ℤ) (u e origin destination : String)
    (r : DistanceResult) (st : List CacheEntry) : List CacheEntry :=
  delete_cached_distance u e st ++
    [{ user_id := u, event_id := e, origin_address := origin,
       destination_address := destination, distance_text := r.distance_text,
       distance_value := r.distance_value, duration_text := r.duration_text,
       duration_value := r.duration_value, calculated_at := now }]

/-! ## Profiles and `get_user_full_address` (`backend/app/utils/distance.py`) -/

/-- A `user_profiles` row (the fields this subsystem reads). -/
structure ProfileRow where
  user_id : String
  address1 : String
  address2 : String
  city : String
  state : String
  zip_code : String
  skills : List String
deriving DecidableEq

/-- distance.py `get_user_full_address`: requires non-blank address1,
city and state; optional address2 and zip are appended when non-blank. -/
def get_user_full_address (p : ProfileRow) : Option String :=
  let address1 := pyStrip p.address1
  let address2 := pyStrip p.address2
  let city := pyStrip p.city
  let state := pyStrip p.state
  let zip_code := pyStrip p.zip_code
  if address1 = "" ∨ city = "" ∨ state = "" then none
  else
    some (String.intercalate ", "
      ([address1] ++ (if address2 = "" then [] else [address2])
        ++ [city ++ ", " ++ state]
        ++ (if zip_code = "" then [] else [zip_code])))

/-! ## `calculate_and_cache_distance` (`backend/app/utils/distance_db.py`)

The Google-Maps client call is an oracle parameter
`resolver : String → String → Option DistanceResult` (`None` models both
provider failure and a missing client).  The third component of the
result records the resolver invocations made during the call. -/

structure CCDResult where
  distance_text : String
  duration_text : String
  distance_value : ℚ
  duration_value : ℚ
  cached : Bool
  calculated_at : ℤ
deriving DecidableEq

def calculate_and_cache_distance (now : ℤ)
    (resolver : String → String → Option DistanceResult)
    (profiles : List ProfileRow) (u e event_location : String)
    (st : List CacheEntry) :
    Option CCDResult × List CacheEntry × List (String × String) :=
  match get_cached_distance now u e st with
  | (some c, st1) =>
    (some { distance_text := c.distance_text, duration_text := c.duration_text,
            distance_value := c.distance_value, duration_value := c.duration_value,
            cached := true, calculated_at := c.calculated_at }, st1, [])
  | (none, st1) =>
    match profiles.filter (fun p => p.user_id = u) with
    | [] => (none, st1, [])
    | p :: _ =>
      match get_user_full_address p with
      | none => (none, st1, [])
      | some user_address =>
        match resolver user_address event_location with
        | none => (none, st1, [(user_address, event_location)])
        | some r =>
          (some { distance_text := r.distance_text, duration_text := r.duration_text,
                  distance_value := r.distance_value, duration_value := r.duration_value,
                  cached := false, calculated_at := now },
           save_distance_calculation now u e user_address event_location r st1,
           [(user_address, event_location)])

/-! ## MatchCoordinator (`backend/app/routes/match.py` `/match` route)

`calculate_distance` (the resolver wrapper of match.py) depends on the
environment (API key, network, process hash seed), so the coordinator is
parameterized over `dist : String → String → ℚ` standing for it; the
loop records one invocation of `dist` per candidate event, exactly as
the source calls `calculate_distance` once per event (line 210). -/

/-- An `events` row (the fields this subsystem reads); `urgency` is
`Option` because the source reads it with `event.get("urgency", ...)`. -/
structure EventRec where
  id : String
  name : String
  location : String
  required_skills : List String
  urgency : Option String
deriving DecidableEq

structure MatchResult where
  event_id : String
  event_name : String
  match_score : ℚ
  skill_match_percentage : ℚ
  distance_miles : ℚ
  urgency_level : String
  reasons : List String
deriving DecidableEq

structure MatchRequest where
  user_id : String
  max_distance : ℚ
  urgency_weight : ℚ
  skill_weight : ℚ
  distance_weight : ℚ

structure CurrentUser where
  user_id : String
  role : String

structure HttpError where
  status_code : Nat
  detail : String
deriving DecidableEq

/-- Starlette renders `str(HTTPException(code, detail))` as
`"{code}: {detail}"` (written here without braces). -/
def httpErrorString (e : HttpError) : String :=
  toString e.status_code ++ ": " ++ e.detail

/-- The f-string `f"..."` building `user_location` from profile fields
(match.py line 198). -/
def user_location_string (p : ProfileRow) : String :=
  p.address1 ++ ", " ++ p.city ++ ", " ++ p.state

/-- One iteration of the candidate loop (match.py lines 207-247):
`none` when the event is skipped by the hard distance filter.  The
interpolated numbers inside the reason strings are elided. -/
def event_match_result (dist : String → String → ℚ) (req : MatchRequest)
    (user_location : String) (user_skills : List String) (event : EventRec) :
    Option MatchResult :=
  let distance := dist user_location event.location
  if req.max_distance < distance then none
  else
    let skill_match := calculate_skill_match user_skills event.required_skills
    let score := calculate_match_score skill_match distance (event.urgency.getD "low")
      req.skill_weight req.distance_weight req.urgency_weight
    let reasons :=
      (if 50 < skill_match then ["Strong skill match"] else []) ++
      (if distance < 10 then ["Close location"] else []) ++
      (if event.urgency = some "high" then ["High priority event"] else [])
    some { event_id := event.id, event_name := event.name, match_score := score,
           skill_match_percentage := skill_match, distance_miles := distance,
           urgency_level := event.urgency.getD "low", reasons := reasons }

/-- The candidate loop over all events, also returning the list of
`calculate_distance` invocations it performs (one per event). -/
def match_loop (dist : String → String → ℚ) (req : MatchRequest)
    (user_location : String) (user_skills : List String) :
    List EventRec → List MatchResult × List (String × String)
  | [] => ([], [])
  | event :: rest =>
    let r := event_match_result dist req user_location user_skills event
    let tail := match_loop dist req user_location user_skills rest
    ((match r with | none => tail.1 | some m => m :: tail.1),
     (user_location, event.location) :: tail.2)

/-- The body of the `try` block of `match_volunteer_to_events`
(match.py lines 187-252): raised `HTTPException`s become `Except.error`. -/
def match_volunteer_inner (dist : String → String → ℚ) (current_user : CurrentUser)
    (req : MatchRequest) (profiles : List ProfileRow) (events : List EventRec) :
    Except HttpError (List MatchResult) :=
  if current_user.user_id ≠ req.user_id ∧ current_user.role ≠ "admin" then
    .error { status_code := 403, detail := "Not authorized" }
  else
    match profiles.filter (fun p => p.user_id = req.user_id) with
    | [] => .error { status_code := 404, detail := "User profile not found" }
    | user_data :: _ =>
      match events with
      | [] => .ok []
      | _ :: _ =>
        let user_location := user_location_string user_data
        let results := (match_loop dist req user_location user_data.skills events).1
        .ok (results.mergeSort (fun a b => decide (b.match_score ≤ a.match_score)))

/-- match.py `match_volunteer_to_events`: the blanket
`except Exception as e: raise HTTPException(500, str(e))` turns every
raised error — including the 403/404 raised inside the `try` — into a
500 whose detail is the stringified original exception. -/
def match_volunteer_to_events (dist : String → String → ℚ) (current_user : CurrentUser)
    (req : MatchRequest) (profiles : List ProfileRow) (events : List EventRec) :
    Except HttpError (List MatchResult) :=
  match match_volunteer_inner dist current_user req profiles events with
  | .ok r => .ok r
  | .error e => .error { status_code := 500, detail := httpErrorString e }

/-! ## `get_nearby_events_for_user` (`backend/app/utils/distance_db.py`) -/

/-- The loop over events (distance_db.py lines 283-288): resolve each
event's distance through `calculate_and_cache_distance`, keep the events
whose `distance_value` is within `max_meters`, threading the cache table
through the iterations. -/
def nearby_loop (now : ℤ) (resolver : String → String → Option DistanceResult)
    (profiles : List ProfileRow) (u : String) (max_meters : ℚ) :
    List EventRec → List CacheEntry →
    List (EventRec × CCDResult) × List CacheEntry
  | [], st => ([], st)
  | ev :: rest, st =>
    let r := calculate_and_cache_distance now resolver profiles u ev.id ev.location st
    let tail := nearby_loop now resolver profiles u max_meters rest r.2.1
    (match r.1 with
     | some dd => if dd.distance_value ≤ max_meters then (ev, dd) :: tail.1 else tail.1
     | none => tail.1,
     tail.2)

/-- distance_db.py `get_nearby_events_for_user`: events fetch failure
(the `except` path) yields `[]`; survivors are sorted ascending by
`distance_value`.  The merged `{**event, **distance_data}` dict is
modelled as the pair of its two parts. -/
def get_nearby_events_for_user (now : ℤ)
    (resolver : String → String → Option DistanceResult)
    (profiles : List ProfileRow) (eventsFetch : Except String (List EventRec))
    (u : String) (max_distance_miles : ℚ) (st : List CacheEntry) :
    List (EventRec × CCDResult) × List CacheEntry :=
  match eventsFetch with
  | .error _ => ([], st)
  | .ok [] => ([], st)
  | .ok events =>
    let max_meters := max_distance_miles * (160934 / 100)
    let r := nearby_loop now resolver profiles u max_meters events st
    (r.1.mergeSort (fun a b => decide (a.2.distance_value ≤ b.2.distance_value)), r.2)

/-! ## Helper lemmas -/

theorem round2_ofNat (n : ℕ) : round2 ((n : ℚ)) = (n : ℚ) := by
  have h := round2_intCast (n : ℤ)
  push_cast at h
  exact h

theorem filter_not_filter {α : Type} (p : α → Bool) (l : List α) :
    (l.filter (fun c => !p c)).filter p = [] := by
  rw [List.filter_filter]
  simp

theorem sorted_mergeSort_key_asc {α : Type} (f : α → ℚ) (l : List α) :
    List.Sorted (fun a b => f a ≤ f b) (l.mergeSort (fun a b => decide (f a ≤ f b))) := by
  have h := @List.sorted_mergeSort _ (fun a b => decide (f a ≤ f b))
    (fun a b c hab hbc => by
      simp only [decide_eq_true_eq] at hab hbc ⊢
      exact le_trans hab hbc)
    (fun a b => by
      simp only [Bool.or_eq_true, decide_eq_true_eq]
      exact le_total (f a) (f b)) l
  exact h.imp (fun hab => by simpa using hab)

theorem sorted_mergeSort_key_desc {α : Type} (f : α → ℚ) (l : List α) :
    List.Sorted (fun a b => f b ≤ f a) (l.mergeSort (fun a b => decide (f b ≤ f a))) := by
  have h := @List.sorted_mergeSort _ (fun a b => decide (f b ≤ f a))
    (fun a b c hab hbc => by
      simp only [decide_eq_true_eq] at hab hbc ⊢
      exact le_trans hbc hab)
    (fun a b => by
      simp only [Bool.or_eq_true, decide_eq_true_eq]
      exact le_total (f b) (f a)) l
  exact h.imp (fun hab => by simpa using hab)

theorem calculate_skill_match_eq_spec (us es : List String) :
    calculate_skill_match us es = spec_skillMatchPercent us es := by
  by_cases h : es = []
  · simp [calculate_skill_match, spec_skillMatchPercent, h]
  · simp only [calculate_skill_match, spec_skillMatchPercent, if_neg h]
    have hnodup : ((us.map pyLowerStr).dedup.filter
        (fun s => decide (s ∈ (es.map pyLowerStr).dedup))).Nodup :=
      (List.nodup_dedup _).filter _
    have hfin : ((us.map pyLowerStr).dedup.filter
        (fun s => decide (s ∈ (es.map pyLowerStr).dedup))).toFinset
        = (us.map pyLowerStr).toFinset ∩ (es.map pyLowerStr).toFinset := by
      ext a
      simp [List.mem_filter, List.mem_dedup]
    have hnum : (((us.map pyLowerStr).toFinset ∩ (es.map pyLowerStr).toFinset).card : ℚ)
        = (((us.map pyLowerStr).dedup.filter
            (fun s => decide (s ∈ (es.map pyLowerStr).dedup))).length : ℚ) := by
      rw [← hfin, List.toFinset_card_of_nodup hnodup]
    have hden : (((es.map pyLowerStr).toFinset.card) : ℚ)
        = (((es.map pyLowerStr).dedup.length) : ℚ) := by
      rw [List.card_toFinset]
    rw [hnum, hden]

theorem calculate_skill_match_bounds (us es : List String) :
    0 ≤ calculate_skill_match us es ∧ calculate_skill_match us es ≤ 100 := by
  by_cases h : es = []
  · simp [calculate_skill_match, h]
  · simp only [calculate_skill_match, if_neg h]
    have hne : (es.map pyLowerStr).toFinset.Nonempty := by
      rw [List.toFinset_nonempty_iff]
      simpa using h
    have hpos : (0:ℚ) < ((es.map pyLowerStr).toFinset.card : ℚ) := by
      exact_mod_cast Finset.card_pos.mpr hne
    have hle : ((((us.map pyLowerStr).toFinset ∩ (es.map pyLowerStr).toFinset).card) : ℚ)
        ≤ (((es.map pyLowerStr).toFinset.card) : ℚ) := by
      exact_mod_cast Finset.card_le_card Finset.inter_subset_right
    have hratio : (((us.map pyLowerStr).toFinset ∩ (es.map pyLowerStr).toFinset).card : ℚ)
        / ((es.map pyLowerStr).toFinset.card : ℚ) ≤ 1 := (div_le_one hpos).mpr hle
    constructor
    · positivity
    · nlinarith

/-! ## Claim theorems -/

/-- C1 (confirmed): for all inputs `calculate_match_score` equals the
spec formula `(skillMatchPercent/100 * skillWeight + distanceScore *
distanceWeight + urgencyScore * urgencyWeight) * 100` rounded to two
decimals, with the spec's urgency map and `maxDistance = 50`; and on the
concrete scenario (skill 100, distance 5, urgency "high", weights
0.5/0.2/0.3) it is exactly 98. -/
theorem matchScore_spec_formula :
    (∀ (sm d : ℚ) (u : String) (sw dw uw : ℚ),
        calculate_match_score sm d u sw dw uw =
          round2 ((sm / 100 * sw + spec_distanceScore d 50 * dw
            + spec_urgencyScore u * uw) * 100)) ∧
    calculate_match_score 100 5 "high" (1/2) (1/5) (3/10) = 98 := by
  constructor
  · intro sm d u sw dw uw
    rfl
  · have h1 : distance_score 5 = 9/10 := by
      rw [distance_score, max_eq_right (by norm_num)]
      norm_num
    have h2 : calculate_urgency_score "high" = 1 := by
      rw [calculate_urgency_score, if_pos (by decide)]
    simp only [calculate_match_score, h1, h2]
    rw [show ((100:ℚ)/100 * (1/2) + 9/10 * (1/5) + 1 * (3/10)) * 100 = ((98:ℕ) : ℚ) by
      norm_num]
    rw [round2_ofNat]
    norm_num

/-- C2 counterexample: the code does not clamp negative distances to a
score of 1.0 — at distance −50 the score is 2. -/
theorem distanceScore_negative_counterexample :
    distance_score (-50) = 2 ∧ ¬ distance_score (-50) = 1 := by
  have h : distance_score (-50) = 2 := by
    rw [distance_score, max_eq_right (by norm_num)]
    norm_num
  exact ⟨h, by rw [h]; norm_num⟩

/-- C2 (corrected): `distance_score` is `max(0, 1 − d/50)` for every
distance (the horizon is fixed at 50); a negative distance yields
`1 − d/50`, which is strictly greater than 1, rather than being clamped
to 1.0. -/
theorem distanceScore_unclamped (d : ℚ) :
    (d < 0 → distance_score d = 1 - d / 50 ∧ 1 < distance_score d) ∧
    (0 ≤ d → distance_score d = max 0 (1 - d / 50)) := by
  constructor
  · intro hd
    have hdiv : d / 50 < 0 := div_neg_of_neg_of_pos hd (by norm_num)
    have heq : distance_score d = 1 - d / 50 := by
      rw [distance_score, max_eq_right (by linarith)]
    refine ⟨heq, ?_⟩
    rw [heq]
    linarith
  · intro _
    rfl

theorem distanceScore_unclamped_witness :
    ((-50:ℚ) < 0 ∧ (distance_score (-50) = 1 - (-50) / 50 ∧ 1 < distance_score (-50))) ∧
    ((0:ℚ) ≤ 3 ∧ distance_score 3 = max 0 (1 - 3 / 50)) :=
  ⟨⟨by norm_num, (distanceScore_unclamped (-50)).1 (by norm_num)⟩,
   ⟨by norm_num, (distanceScore_unclamped 3).2 (by norm_num)⟩⟩

/-- A concrete admissible instance of Python's (process-seeded,
unspecified) builtin string hash, used to exhibit that the offline
fallback is not a function of the normalized addresses: the source
hashes the raw concatenation `origin + destination` without lowering or
stripping. -/
def demoHash (s : String) : ℤ := s.data.foldl (fun a c => a + (c.toNat : ℤ)) 0

/-- C6 counterexample: two origin strings with identical normalized form
("A" and "a") produce different fallback distances under an admissible
hash, so the fallback is not derived from the normalized addresses. -/
theorem fallback_not_normalized_counterexample :
    pyNormalize "A" = pyNormalize "a" ∧
    calculate_distance_fallback demoHash "A" "b" ≠
      calculate_distance_fallback demoHash "a" "b" := by
  refine ⟨by decide, ?_⟩
  have e1 : calculate_distance_fallback demoHash "A" "b" = ((14:ℕ) : ℚ) := by
    simp only [calculate_distance_fallback]
    rw [show (|demoHash ("A" ++ "b")| % 25 : ℤ) = 13 from by decide]
    rw [show (((13:ℤ) : ℚ) + 1) = ((14:ℕ) : ℚ) from by push_cast; norm_num]
    exact round2_ofNat 14
  have e2 : calculate_distance_fallback demoHash "a" "b" = ((21:ℕ) : ℚ) := by
    simp only [calculate_distance_fallback]
    rw [show (|demoHash ("a" ++ "b")| % 25 : ℤ) = 20 from by decide]
    rw [show (((20:ℤ) : ℚ) + 1) = ((21:ℕ) : ℚ) from by push_cast; norm_num]
    exact round2_ofNat 21
  rw [e1, e2]
  norm_num

/-- C6 (corrected): for every hash seed, the offline fallback equals
`|hash(origin + destination)| % 25 + 1` — a deterministic function of
the raw concatenated (not normalized) address pair — and always lies in
`[1, 25]` miles. -/
theorem fallback_deterministic_range (pyhash : String → ℤ) (origin destination : String) :
    calculate_distance_fallback pyhash origin destination =
      ((|pyhash (origin ++ destination)| % 25 : ℤ) : ℚ) + 1 ∧
    1 ≤ calculate_distance_fallback pyhash origin destination ∧
    calculate_distance_fallback pyhash origin destination ≤ 25 := by
  have hk0 : (0:ℤ) ≤ |pyhash (origin ++ destination)| % 25 :=
    Int.emod_nonneg _ (by norm_num)
  have hk25 : |pyhash (origin ++ destination)| % 25 < 25 :=
    Int.emod_lt_of_pos _ (by norm_num)
  have heq : calculate_distance_fallback pyhash origin destination =
      ((|pyhash (origin ++ destination)| % 25 : ℤ) : ℚ) + 1 := by
    simp only [calculate_distance_fallback]
    rw [show (((|pyhash (origin ++ destination)| % 25 : ℤ) : ℚ) + 1)
        = (((|pyhash (origin ++ destination)| % 25 + 1 : ℤ)) : ℚ) from by push_cast; ring]
    exact round2_intCast _
  refine ⟨heq, ?_, ?_⟩
  · rw [heq]
    have : (1:ℚ) ≤ ((|pyhash (origin ++ destination)| % 25 : ℤ) : ℚ) + 1 := by
      have := hk0
      exact_mod_cast by omega
    exact this
  · rw [heq]
    have h25 : |pyhash (origin ++ destination)| % 25 + 1 ≤ (25:ℤ) := by omega
    exact_mod_cast h25

/-- C8 (confirmed): `calculate_skill_match` is always within `[0, 100]`,
equals the spec's dedup-list formulation (case-insensitive intersection
size over the number of distinct required skills, times 100), is 0 on
empty required skills, and on volunteer skills ["Python","JavaScript"]
versus requirements ["python","java"] is exactly 50. -/
theorem skillMatch_bounds_and_scenario :
    (∀ us es, 0 ≤ calculate_skill_match us es ∧ calculate_skill_match us es ≤ 100) ∧
    (∀ us es, calculate_skill_match us es = spec_skillMatchPercent us es) ∧
    (∀ us, calculate_skill_match us [] = 0) ∧
    calculate_skill_match ["Python", "JavaScript"] ["python", "java"] = 50 := by
  refine ⟨calculate_skill_match_bounds, calculate_skill_match_eq_spec,
    fun us => by simp [calculate_skill_match], ?_⟩
  rw [calculate_skill_match_eq_spec]
  simp only [spec_skillMatchPercent]
  rw [if_neg (by decide : ¬ ((["python", "java"] : List String) = []))]
  rw [show ((["Python", "JavaScript"].map pyLowerStr).dedup.filter
      (fun s => decide (s ∈ (["python", "java"].map pyLowerStr).dedup))) = ["python"]
    from by decide]
  rw [show ((["python", "java"] : List String).map pyLowerStr).dedup = ["python", "java"]
    from by decide]
  norm_num

/-- C3 (confirmed): when the rows stored for `(u, e)` are exactly `[c]`,
a `get` at a `now` more than 24 hours past `c.calculated_at` misses and
deletes the pair's rows from the table (lazy eviction), while a `get`
within 24 hours returns `c` and leaves the table unchanged. -/
theorem cache_ttl_expiry (now : ℤ) (u e : String) (st : List CacheEntry) (c : CacheEntry)
    (h : st.filter (entryMatches u e) = [c]) :
    (ttlSeconds < now - c.calculated_at →
      get_cached_distance now u e st = (none, delete_cached_distance u e st) ∧
      (delete_cached_distance u e st).filter (entryMatches u e) = []) ∧
    (now - c.calculated_at < ttlSeconds →
      get_cached_distance now u e st = (some c, st)) := by
  constructor
  · intro hold
    have hnot : ¬ (now - c.calculated_at < ttlSeconds) := by linarith
    constructor
    · simp only [get_cached_distance, h]
      rw [if_neg hnot]
    · exact filter_not_filter _ _
  · intro hyoung
    simp only [get_cached_distance, h]
    rw [if_pos hyoung]

def c3entry : CacheEntry :=
  { user_id := "u1", event_id := "e1", origin_address := "o", destination_address := "d",
    distance_text := "3 mi", distance_value := 4828, duration_text := "5 mins",
    duration_value := 300, calculated_at := 0 }

theorem cache_ttl_expiry_witness :
    ([c3entry].filter (entryMatches "u1" "e1") = [c3entry]) ∧
    ((ttlSeconds < 100000 - c3entry.calculated_at →
      get_cached_distance 100000 "u1" "e1" [c3entry] =
        (none, delete_cached_distance "u1" "e1" [c3entry]) ∧
      (delete_cached_distance "u1" "e1" [c3entry]).filter (entryMatches "u1" "e1") = []) ∧
    (100000 - c3entry.calculated_at < ttlSeconds →
      get_cached_distance 100000 "u1" "e1" [c3entry] = (some c3entry, [c3entry]))) := by
  have hfilter : ([c3entry].filter (entryMatches "u1" "e1")) = [c3entry] := by
    simp [entryMatches, c3entry]
  exact ⟨hfilter, cache_ttl_expiry 100000 "u1" "e1" [c3entry] c3entry hfilter⟩

/-- C5 counterexample: the addresses "x" and "X" are different strings,
yet `key("x","X") = key("X","x")`, because both normalize to "x" and the
key hashes only the normalized pair.  So order-sensitivity fails for
some `A ≠ B`. -/
theorem cacheKey_case_counterexample :
    generate_cache_key "x" "X" = generate_cache_key "X" "x" ∧ ("x" : String) ≠ "X" := by
  constructor
  · have h : cache_key_input "x" "X" = cache_key_input "X" "x" := by decide
    simp only [generate_cache_key]
    exact congrArg md5hex h
  · decide

/-- C5 (corrected): the key depends only on the lowercased/trimmed
addresses (so it is invariant under case and surrounding whitespace),
hence `key(A,B) = key(B,A)` whenever the two normalized addresses
coincide; order-sensitivity holds at the level of the hashed string:
for normalized addresses of equal length that differ, the pre-hash
inputs of `key(A,B)` and `key(B,A)` differ. -/
theorem cacheKey_normalization (a b a' b' : String) :
    (pyNormalize a = pyNormalize a' → pyNormalize b = pyNormalize b' →
      generate_cache_key a b = generate_cache_key a' b') ∧
    (pyNormalize a = pyNormalize b →
      generate_cache_key a b = generate_cache_key b a) ∧
    ((pyNormalize a).length = (pyNormalize b).length → pyNormalize a ≠ pyNormalize b →
      cache_key_input a b ≠ cache_key_input b a) := by
  refine ⟨?_, ?_, ?_⟩
  · intro h1 h2
    simp only [generate_cache_key, cache_key_input, h1, h2]
  · intro h
    simp only [generate_cache_key, cache_key_input, h]
  · intro hlen hne heq
    apply hne
    have hd := congrArg String.data heq
    simp only [cache_key_input, String.data_append, List.append_assoc] at hd
    have hlen' : (pyNormalize a).data.length = (pyNormalize b).data.length := hlen
    have hinj := List.append_inj hd hlen'
    exact congrArg String.mk hinj.1

theorem cacheKey_normalization_witness :
    (pyNormalize " Foo" = pyNormalize "foo" ∧ pyNormalize "Bar " = pyNormalize "bar" ∧
      generate_cache_key " Foo" "Bar " = generate_cache_key "foo" "bar") ∧
    (pyNormalize "q" = pyNormalize "Q" ∧
      generate_cache_key "q" "Q" = generate_cache_key "Q" "q") ∧
    ((pyNormalize "ab").length = (pyNormalize "cd").length ∧
      pyNormalize "ab" ≠ pyNormalize "cd" ∧
      cache_key_input "ab" "cd" ≠ cache_key_input "cd" "ab") := by
  refine ⟨⟨by decide, by decide,
      (cacheKey_normalization " Foo" "Bar " "foo" "bar").1 (by decide) (by decide)⟩,
    ⟨by decide, (cacheKey_normalization "q" "Q" "q" "q").2.1 (by decide)⟩,
    ⟨by decide, by decide,
      (cacheKey_normalization "ab" "cd" "cd" "ab").2.2 (by decide) (by decide)⟩⟩

/-! ## C4: the `/match` coordinator versus the cache -/

def c4entry : CacheEntry :=
  { user_id := "u2", event_id := "e2", origin_address := "o", destination_address := "d",
    distance_text := "2 mi", distance_value := 3219, duration_text := "4 mins",
    duration_value := 240, calculated_at := 0 }

def c4req : MatchRequest :=
  { user_id := "u2", max_distance := 50, urgency_weight := 3/10, skill_weight := 1/2,
    distance_weight := 1/5 }

def c4event : EventRec :=
  { id := "e2", name := "Cleanup", location := "Venue", required_skills := ["python"],
    urgency := some "high" }

def c4dist : String → String → ℚ := fun a b => 7

/-- C4 counterexample: a live (non-expired) cache entry exists for the
pair ("u2", "e2") that the request/event denote, yet the `/match`
candidate loop still invokes `calculate_distance` for the event (its
call list is non-empty), and the distance it uses is the resolver's
value 7, not the cached row's value — the coordinator never consults the
DistanceCache. -/
theorem coordinator_ignores_cache_counterexample :
    (get_cached_distance 3600 "u2" "e2" [c4entry]).1 = some c4entry ∧
    c4req.user_id = "u2" ∧ c4event.id = "e2" ∧
    (match_loop c4dist c4req "loc" ["python"] [c4event]).2 = [("loc", "Venue")] ∧
    (match_loop c4dist c4req "loc" ["python"] [c4event]).2 ≠ [] ∧
    (match_loop c4dist c4req "loc" ["python"] [c4event]).1.map
      (fun m => m.distance_miles) = [7] ∧
    (7:ℚ) ≠ c4entry.distance_value := by
  have hf : ([c4entry].filter (entryMatches "u2" "e2")) = [c4entry] := by
    simp [entryMatches, c4entry]
  have hlive : get_cached_distance 3600 "u2" "e2" [c4entry] = (some c4entry, [c4entry]) := by
    simp only [get_cached_distance, hf]
    rw [if_pos (by decide)]
  have hskip : ¬ (c4req.max_distance < c4dist "loc" c4event.location) := by
    simp only [c4req, c4dist]
    norm_num
  refine ⟨by rw [hlive], rfl, rfl, ?_, ?_, ?_, ?_⟩
  · simp [match_loop, c4event]
  · simp [match_loop, c4event]
  · simp only [match_loop, event_match_result, if_neg hskip]
    simp [c4dist]
  · simp only [c4entry]
    norm_num

def c4profile : ProfileRow :=
  { user_id := "u3", address1 := "1 Main St", address2 := "", city := "Houston",
    state := "TX", zip_code := "", skills := ["python"] }

def c4res : DistanceResult :=
  { distance_text := "7 mi", distance_value := 11265, duration_text := "10 mins",
    duration_value := 600 }

def c4resolver : String → String → Option DistanceResult := fun a b => some c4res

/-- C4 (corrected): the cache-first discipline the claim describes holds
for `calculate_and_cache_distance` (used by the nearby-events path), not
for the `/match` coordinator: on a live cache hit the cached values are
returned and the resolver call list is empty; on a miss with a
resolvable profile the resolver is invoked exactly once and its result
is stored in the cache for the pair. -/
theorem ccd_cache_first (now : ℤ) (resolver : String → String → Option DistanceResult)
    (profiles : List ProfileRow) (u e loc : String) (st : List CacheEntry)
    (c : CacheEntry) (p : ProfileRow) (ps : List ProfileRow) (addr : String)
    (r : DistanceResult) :
    (get_cached_distance now u e st = (some c, st) →
      calculate_and_cache_distance now resolver profiles u e loc st =
        (some { distance_text := c.distance_text, duration_text := c.duration_text,
                distance_value := c.distance_value, duration_value := c.duration_value,
                cached := true, calculated_at := c.calculated_at }, st, [])) ∧
    (st.filter (entryMatches u e) = [] →
     profiles.filter (fun q => q.user_id = u) = p :: ps →
     get_user_full_address p = some addr →
     resolver addr loc = some r →
      calculate_and_cache_distance now resolver profiles u e loc st =
        (some { distance_text := r.distance_text, duration_text := r.duration_text,
                distance_value := r.distance_value, duration_value := r.duration_value,
                cached := false, calculated_at := now },
         save_distance_calculation now u e addr loc r st,
         [(addr, loc)]) ∧
      (save_distance_calculation now u e addr loc r st).filter (entryMatches u e) =
        [{ user_id := u, event_id := e, origin_address := addr,
           destination_address := loc, distance_text := r.distance_text,
           distance_value := r.distance_value, duration_text := r.duration_text,
           duration_value := r.duration_value, calculated_at := now }]) := by
  constructor
  · intro hget
    simp only [calculate_and_cache_distance, hget]
  · intro hmiss hprof haddr hres
    have hget : get_cached_distance now u e st = (none, st) := by
      simp only [get_cached_distance, hmiss]
    constructor
    · simp only [calculate_and_cache_distance, hget, hprof, haddr, hres]
    · rw [save_distance_calculation, List.filter_append, delete_cached_distance,
        filter_not_filter]
      simp [entryMatches]

theorem ccd_cache_first_witness :
    (get_cached_distance 3600 "u2" "e2" [c4entry] = (some c4entry, [c4entry]) ∧
      calculate_and_cache_distance 3600 c4resolver [c4profile] "u2" "e2" "Venue" [c4entry] =
        (some { distance_text := c4entry.distance_text,
                duration_text := c4entry.duration_text,
                distance_value := c4entry.distance_value,
                duration_value := c4entry.duration_value,
                cached := true, calculated_at := c4entry.calculated_at },
         [c4entry], [])) ∧
    (([] : List CacheEntry).filter (entryMatches "u3" "e9") = [] ∧
      [c4profile].filter (fun q => q.user_id = "u3") = [c4profile] ∧
      get_user_full_address c4profile = some "1 Main St, Houston, TX" ∧
      c4resolver "1 Main St, Houston, TX" "Venue" = some c4res ∧
      calculate_and_cache_distance 3600 c4resolver [c4profile] "u3" "e9" "Venue" [] =
        (some { distance_text := c4res.distance_text, duration_text := c4res.duration_text,
                distance_value := c4res.distance_value, duration_value := c4res.duration_value,
                cached := false, calculated_at := 3600 },
         save_distance_calculation 3600 "u3" "e9" "1 Main St, Houston, TX" "Venue" c4res [],
         [("1 Main St, Houston, TX", "Venue")]) ∧
      (save_distance_calculation 3600 "u3" "e9" "1 Main St, Houston, TX" "Venue" c4res
          []).filter (entryMatches "u3" "e9") =
        [{ user_id := "u3", event_id := "e9",
           origin_address := "1 Main St, Houston, TX", destination_address := "Venue",
           distance_text := c4res.distance_text, distance_value := c4res.distance_value,
           duration_text := c4res.duration_text, duration_value := c4res.duration_value,
           calculated_at := 3600 }]) := by
  have hf : ([c4entry].filter (entryMatches "u2" "e2")) = [c4entry] := by
    simp [entryMatches, c4entry]
  have hhit : get_cached_distance 3600 "u2" "e2" [c4entry] = (some c4entry, [c4entry]) := by
    simp only [get_cached_distance, hf]
    rw [if_pos (by decide)]
  have h1 : ([] : List CacheEntry).filter (entryMatches "u3" "e9") = [] := rfl
  have h2 : [c4profile].filter (fun q => q.user_id = "u3") = [c4profile] := by
    simp [c4profile]
  have h3 : get_user_full_address c4profile = some "1 Main St, Houston, TX" := by decide
  have h4 : c4resolver "1 Main St, Houston, TX" "Venue" = some c4res := rfl
  exact ⟨⟨hhit,
      (ccd_cache_first 3600 c4resolver [c4profile] "u2" "e2" "Venue" [c4entry] c4entry
        c4profile [] "x" c4res).1 hhit⟩,
    ⟨h1, h2, h3, h4,
      (ccd_cache_first 3600 c4resolver [c4profile] "u3" "e9" "Venue" [] c4entry
        c4profile [] "1 Main St, Houston, TX" c4res).2 h1 h2 h3 h4⟩⟩

/-! ## C7: the hard distance filter and the ranking order -/

theorem event_match_result_some (dist : String → String → ℚ) (req : MatchRequest)
    (loc : String) (skills : List String) (ev : EventRec) (m : MatchResult)
    (h : event_match_result dist req loc skills ev = some m) :
    m.distance_miles = dist loc ev.location ∧
    ¬ (req.max_distance < dist loc ev.location) := by
  by_cases hc : req.max_distance < dist loc ev.location
  · simp [event_match_result, hc] at h
  · refine ⟨?_, hc⟩
    simp only [event_match_result, if_neg hc] at h
    obtain rfl := Option.some.inj h
    rfl

theorem event_match_result_keeps (dist : String → String → ℚ) (req : MatchRequest)
    (loc : String) (skills : List String) (ev : EventRec)
    (h : ¬ (req.max_distance < dist loc ev.location)) :
    ∃ m, event_match_result dist req loc skills ev = some m ∧
      m.event_id = ev.id ∧ m.distance_miles = dist loc ev.location := by
  simp only [event_match_result, if_neg h]
  exact ⟨_, rfl, rfl, rfl⟩

theorem match_loop_mem_distance (dist : String → String → ℚ) (req : MatchRequest)
    (loc : String) (skills : List String) :
    ∀ (events : List EventRec) (m : MatchResult),
      m ∈ (match_loop dist req loc skills events).1 →
      m.distance_miles ≤ req.max_distance := by
  intro events
  induction events with
  | nil =>
    intro m hm
    simp [match_loop] at hm
  | cons ev rest ih =>
    intro m hm
    simp only [match_loop] at hm
    cases hr : event_match_result dist req loc skills ev with
    | none =>
      rw [hr] at hm
      exact ih m hm
    | some x =>
      rw [hr] at hm
      rcases List.mem_cons.mp hm with heq | hmem
      · subst heq
        obtain ⟨hdm, hnl⟩ := event_match_result_some dist req loc skills ev m hr
        rw [hdm]
        exact le_of_not_lt hnl
      · exact ih m hmem

theorem match_loop_mem_of_some (dist : String → String → ℚ) (req : MatchRequest)
    (loc : String) (skills : List String) :
    ∀ (events : List EventRec) (ev : EventRec) (m : MatchResult),
      ev ∈ events → event_match_result dist req loc skills ev = some m →
      m ∈ (match_loop dist req loc skills events).1 := by
  intro events
  induction events with
  | nil =>
    intro ev m hev
    simp at hev
  | cons e0 rest ih =>
    intro ev m hev hm
    simp only [match_loop]
    rcases List.mem_cons.mp hev with heq | hmem
    · subst heq
      rw [hm]
      exact List.mem_cons_self _ _
    · cases hr : event_match_result dist req loc skills e0 with
      | none => exact ih ev m hmem hm
      | some x => exact List.mem_cons_of_mem _ (ih ev m hmem hm)

/-- C7 (confirmed): under a passing authorization check and an existing
profile, the coordinator returns a list in which every entry's resolved
distance is at most `max_distance` (events strictly beyond it are
neither scored nor returned), an event at exactly `max_distance` is
retained, and the list is sorted descending by `match_score`. -/
theorem distance_filter_and_ranking (dist : String → String → ℚ) (cu : CurrentUser)
    (req : MatchRequest) (profiles : List ProfileRow) (events : List EventRec)
    (p : ProfileRow) (ps : List ProfileRow)
    (hauth : cu.user_id = req.user_id ∨ cu.role = "admin")
    (hprof : profiles.filter (fun q => q.user_id = req.user_id) = p :: ps) :
    ∃ out, match_volunteer_to_events dist cu req profiles events = .ok out ∧
      (∀ m ∈ out, m.distance_miles ≤ req.max_distance) ∧
      List.Sorted (fun a b : MatchResult => b.match_score ≤ a.match_score) out ∧
      (∀ ev ∈ events, dist (user_location_string p) ev.location = req.max_distance →
        ∃ m ∈ out, m.event_id = ev.id ∧ m.distance_miles = req.max_distance) := by
  have hcond : ¬ (cu.user_id ≠ req.user_id ∧ cu.role ≠ "admin") := by
    rcases hauth with h | h
    · intro hc
      exact hc.1 h
    · intro hc
      exact hc.2 h
  cases events with
  | nil =>
    refine ⟨[], ?_, by simp, by simp, by simp⟩
    simp only [match_volunteer_to_events, match_volunteer_inner, if_neg hcond, hprof]
  | cons e0 rest =>
    refine ⟨((match_loop dist req (user_location_string p) p.skills (e0 :: rest)).1).mergeSort
        (fun a b => decide (b.match_score ≤ a.match_score)), ?_, ?_, ?_, ?_⟩
    · simp only [match_volunteer_to_events, match_volunteer_inner, if_neg hcond, hprof]
    · intro m hm
      rw [List.mem_mergeSort] at hm
      exact match_loop_mem_distance dist req (user_location_string p) p.skills
        (e0 :: rest) m hm
    · exact sorted_mergeSort_key_desc (fun m : MatchResult => m.match_score) _
    · intro ev hev hd
      have hns : ¬ (req.max_distance < dist (user_location_string p) ev.location) := by
        rw [hd]
        exact lt_irrefl _
      obtain ⟨m, hm, hid, hdm⟩ :=
        event_match_result_keeps dist req (user_location_string p) p.skills ev hns
      refine ⟨m, List.mem_mergeSort.mpr
        (match_loop_mem_of_some dist req (user_location_string p) p.skills
          (e0 :: rest) ev m hev hm), hid, ?_⟩
      rw [hdm, hd]

def c7profile : ProfileRow :=
  { user_id := "u7", address1 := "2 Oak St", address2 := "", city := "Austin",
    state := "TX", zip_code := "", skills := ["python"] }

def c7event : EventRec :=
  { id := "e7", name := "Drive", location := "Site", required_skills := ["python"],
    urgency := some "low" }

def c7req : MatchRequest :=
  { user_id := "u7", max_distance := 50, urgency_weight := 3/10, skill_weight := 1/2,
    distance_weight := 1/5 }

theorem distance_filter_and_ranking_witness :
    (({ user_id := "u7", role := "admin" } : CurrentUser).user_id = c7req.user_id ∨
      ({ user_id := "u7", role := "admin" } : CurrentUser).role = "admin") ∧
    ([c7profile].filter (fun q => q.user_id = c7req.user_id) = [c7profile]) ∧
    (∃ out, match_volunteer_to_events (fun x y => 50) { user_id := "u7", role := "admin" }
        c7req [c7profile] [c7event] = .ok out ∧
      (∀ m ∈ out, m.distance_miles ≤ c7req.max_distance) ∧
      List.Sorted (fun a b : MatchResult => b.match_score ≤ a.match_score) out ∧
      (∀ ev ∈ [c7event],
        (fun x y => (50:ℚ)) (user_location_string c7profile) ev.location = c7req.max_distance →
        ∃ m ∈ out, m.event_id = ev.id ∧ m.distance_miles = c7req.max_distance)) := by
  have hauth : ({ user_id := "u7", role := "admin" } : CurrentUser).user_id = c7req.user_id ∨
      ({ user_id := "u7", role := "admin" } : CurrentUser).role = "admin" := Or.inr rfl
  have hprof : [c7profile].filter (fun q => q.user_id = c7req.user_id) = [c7profile] := by
    simp [c7profile, c7req]
  exact ⟨hauth, hprof,
    distance_filter_and_ranking (fun x y => 50) { user_id := "u7", role := "admin" }
      c7req [c7profile] [c7event] c7profile [] hauth hprof⟩

/-! ## C9: behavior when the volunteer has no profile -/

def exceptIsOk {ε α : Type} : Except ε α → Bool
  | .ok _ => true
  | .error _ => false

/-- C9 counterexample: with an empty profile table the coordinator does
not surface a non-fatal "no matches" result — it fails: the 404 raised
inside the `try` is caught by the blanket handler and re-raised as an
HTTP 500 error. -/
theorem profile_not_found_counterexample :
    match_volunteer_to_events (fun x y => 1) { user_id := "u9", role := "volunteer" }
        { user_id := "u9", max_distance := 50, urgency_weight := 3/10, skill_weight := 1/2,
          distance_weight := 1/5 } [] [] =
      .error { status_code := 500, detail := "404: User profile not found" } ∧
    exceptIsOk (match_volunteer_to_events (fun x y => 1)
        { user_id := "u9", role := "volunteer" }
        { user_id := "u9", max_distance := 50, urgency_weight := 3/10, skill_weight := 1/2,
          distance_weight := 1/5 } [] []) = false := by
  have h : match_volunteer_to_events (fun x y => (1:ℚ)) { user_id := "u9", role := "volunteer" }
      { user_id := "u9", max_distance := 50, urgency_weight := 3/10, skill_weight := 1/2,
        distance_weight := 1/5 } [] [] =
      .error { status_code := 500, detail := "404: User profile not found" } := by
    rfl
  exact ⟨h, by rw [h]; rfl⟩

/-- C9 (corrected): when the volunteer has no profile row the
coordinator propagates a failure — an HTTP 500 error whose detail wraps
the original 404 — rather than returning a "no matches" result; when
the profile exists and there are no events, it returns the empty ranked
list. -/
theorem profile_not_found_is_error (dist : String → String → ℚ) (cu : CurrentUser)
    (req : MatchRequest) (profiles : List ProfileRow) (events : List EventRec)
    (hauth : cu.user_id = req.user_id ∨ cu.role = "admin") :
    (profiles.filter (fun q => q.user_id = req.user_id) = [] →
      match_volunteer_to_events dist cu req profiles events =
        .error { status_code := 500, detail := "404: User profile not found" }) ∧
    (∀ p ps, profiles.filter (fun q => q.user_id = req.user_id) = p :: ps → events = [] →
      match_volunteer_to_events dist cu req profiles events = .ok []) := by
  have hcond : ¬ (cu.user_id ≠ req.user_id ∧ cu.role ≠ "admin") := by
    rcases hauth with h | h
    · intro hc
      exact hc.1 h
    · intro hc
      exact hc.2 h
  constructor
  · intro hnone
    simp only [match_volunteer_to_events, match_volunteer_inner, if_neg hcond, hnone]
    rw [show httpErrorString { status_code := 404, detail := "User profile not found" }
        = "404: User profile not found" from by decide]
  · intro p ps hsome hev
    subst hev
    simp only [match_volunteer_to_events, match_volunteer_inner, if_neg hcond, hsome]

def c9profile : ProfileRow :=
  { user_id := "u9", address1 := "3 Elm St", address2 := "", city := "Dallas",
    state := "TX", zip_code := "", skills := [] }

theorem profile_not_found_is_error_witness :
    (("u9" : String) = "u9" ∨ ("volunteer" : String) = "admin") ∧
    (([] : List ProfileRow).filter (fun q => q.user_id = ("u9" : String)) = [] ∧
      match_volunteer_to_events (fun x y => 1) { user_id := "u9", role := "volunteer" }
          { user_id := "u9", max_distance := 50, urgency_weight := 3/10,
            skill_weight := 1/2, distance_weight := 1/5 } [] [] =
        .error { status_code := 500, detail := "404: User profile not found" }) ∧
    ([c9profile].filter (fun q => q.user_id = ("u9" : String)) = [c9profile] ∧
      match_volunteer_to_events (fun x y => 1) { user_id := "u9", role := "volunteer" }
          { user_id := "u9", max_distance := 50, urgency_weight := 3/10,
            skill_weight := 1/2, distance_weight := 1/5 } [c9profile] [] = .ok []) := by
  have hauth : (({ user_id := "u9", role := "volunteer" } : CurrentUser).user_id =
      ({ user_id := "u9", max_distance := 50, urgency_weight := 3/10, skill_weight := 1/2,
         distance_weight := 1/5 } : MatchRequest).user_id) ∨
      (({ user_id := "u9", role := "volunteer" } : CurrentUser).role = "admin") := Or.inl rfl
  have hempty : ([] : List ProfileRow).filter (fun q => q.user_id = ("u9" : String)) = [] := rfl
  have hone : [c9profile].filter (fun q => q.user_id = ("u9" : String)) = [c9profile] := by
    simp [c9profile]
  exact ⟨Or.inl rfl,
    ⟨hempty, (profile_not_found_is_error (fun x y => 1) _ _ [] [] hauth).1 hempty⟩,
    ⟨hone, (profile_not_found_is_error (fun x y => 1) _ _ [c9profile] [] hauth).2
      c9profile [] hone rfl⟩⟩

/-! ## C10: nearby events are bounded, sorted, and error-safe -/

theorem nearby_loop_mem (now : ℤ) (resolver : String → String → Option DistanceResult)
    (profiles : List ProfileRow) (u : String) (mx : ℚ) :
    ∀ (events : List EventRec) (st : List CacheEntry) (x : EventRec × CCDResult),
      x ∈ (nearby_loop now resolver profiles u mx events st).1 →
      x.2.distance_value ≤ mx ∧ x.1 ∈ events ∧
      ∃ stIn, (calculate_and_cache_distance now resolver profiles u x.1.id
        x.1.location stIn).1 = some x.2 := by
  intro events
  induction events with
  | nil =>
    intro st x hx
    simp [nearby_loop] at hx
  | cons ev rest ih =>
    intro st x hx
    simp only [nearby_loop] at hx
    cases hr : (calculate_and_cache_distance now resolver profiles u ev.id
        ev.location st).1 with
    | none =>
      simp only [hr] at hx
      obtain ⟨h1, h2, h3⟩ := ih _ x hx
      exact ⟨h1, List.mem_cons_of_mem _ h2, h3⟩
    | some dd =>
      simp only [hr] at hx
      by_cases hle : dd.distance_value ≤ mx
      · rw [if_pos hle] at hx
        rcases List.mem_cons.mp hx with heq | hmem
        · subst heq
          exact ⟨hle, List.mem_cons_self _ _, ⟨st, hr⟩⟩
        · obtain ⟨h1, h2, h3⟩ := ih _ x hmem
          exact ⟨h1, List.mem_cons_of_mem _ h2, h3⟩
      · rw [if_neg hle] at hx
        obtain ⟨h1, h2, h3⟩ := ih _ x hx
        exact ⟨h1, List.mem_cons_of_mem _ h2, h3⟩

/-- C10 (confirmed): every event returned by `get_nearby_events_for_user`
has `distance_value` at most `max_distance_miles * 1609.34` meters, the
returned list is sorted ascending by `distance_value`, every returned
element is an input event whose distance resolution succeeded (events
whose distance could not be resolved are omitted), and an events-fetch
failure yields the empty list. -/
theorem nearby_events_sorted_bounded (now : ℤ)
    (resolver : String → String → Option DistanceResult) (profiles : List ProfileRow)
    (eventsFetch : Except String (List EventRec)) (u : String) (maxd : ℚ)
    (st : List CacheEntry) :
    (∀ x ∈ (get_nearby_events_for_user now resolver profiles eventsFetch u maxd st).1,
      x.2.distance_value ≤ maxd * (160934 / 100)) ∧
    List.Sorted (fun a b : EventRec × CCDResult => a.2.distance_value ≤ b.2.distance_value)
      (get_nearby_events_for_user now resolver profiles eventsFetch u maxd st).1 ∧
    (∀ x ∈ (get_nearby_events_for_user now resolver profiles eventsFetch u maxd st).1,
      ∃ events, eventsFetch = .ok events ∧ x.1 ∈ events ∧
        ∃ stIn, (calculate_and_cache_distance now resolver profiles u x.1.id
          x.1.location stIn).1 = some x.2) ∧
    (∀ s, eventsFetch = .error s →
      (get_nearby_events_for_user now resolver profiles eventsFetch u maxd st).1 = []) := by
  cases eventsFetch with
  | error s =>
    refine ⟨?_, ?_, ?_, ?_⟩ <;> simp [get_nearby_events_for_user]
  | ok events =>
    cases events with
    | nil =>
      refine ⟨?_, ?_, ?_, ?_⟩ <;> simp [get_nearby_events_for_user]
    | cons e0 rest =>
      refine ⟨?_, ?_, ?_, by intro s hs; cases hs⟩
      · intro x hx
        simp only [get_nearby_events_for_user] at hx
        rw [List.mem_mergeSort] at hx
        exact (nearby_loop_mem now resolver profiles u (maxd * (160934 / 100))
          (e0 :: rest) st x hx).1
      · simp only [get_nearby_events_for_user]
        exact sorted_mergeSort_key_asc (fun x : EventRec × CCDResult => x.2.distance_value) _
      · intro x hx
        simp only [get_nearby_events_for_user] at hx
        rw [List.mem_mergeSort] at hx
        obtain ⟨h1, h2, h3⟩ := nearby_loop_mem now resolver profiles u
          (maxd * (160934 / 100)) (e0 :: rest) st x hx
        exact ⟨e0 :: rest, rfl, h2, h3⟩

def c10profile : ProfileRow :=
  { user_id := "u10", address1 := "4 Pine St", address2 := "", city := "Waco",
    state := "TX", zip_code := "", skills := [] }

def c10res : DistanceResult :=
  { distance_text := "1 mi", distance_value := 1000, duration_text := "2 mins",
    duration_value := 120 }

def c10resolver : String → String → Option DistanceResult := fun a b => some c10res

def c10event : EventRec :=
  { id := "e10", name := "Fair", location := "Hall", required_skills := [],
    urgency := none }

def c10dd : CCDResult :=
  { distance_text := "1 mi", duration_text := "2 mins", distance_value := 1000,
    duration_value := 120, cached := false, calculated_at := 0 }

theorem nearby_events_sorted_bounded_witness :
    ((c10event, c10dd) ∈ (get_nearby_events_for_user 0 c10resolver [c10profile]
        (.ok [c10event]) "u10" 50 []).1) ∧
    c10dd.distance_value ≤ 50 * (160934 / 100) := by
  have hccd : calculate_and_cache_distance 0 c10resolver [c10profile] "u10"
      c10event.id c10event.location [] =
      (some c10dd,
       save_distance_calculation 0 "u10" c10event.id "4 Pine St, Waco, TX"
         c10event.location c10res [],
       [("4 Pine St, Waco, TX", c10event.location)]) := by
    rfl
  have hloop : (nearby_loop 0 c10resolver [c10profile] "u10" (50 * (160934 / 100))
      [c10event] []).1 = [(c10event, c10dd)] := by
    simp only [nearby_loop, hccd]
    rw [if_pos (by rw [show c10dd.distance_value = 1000 from rfl]; norm_num)]
  have hmem : (c10event, c10dd) ∈ (get_nearby_events_for_user 0 c10resolver [c10profile]
      (.ok [c10event]) "u10" 50 []).1 := by
    simp only [get_nearby_events_for_user]
    rw [List.mem_mergeSort, hloop]
    exact List.mem_cons_self _ _
  exact ⟨hmem, (nearby_events_sorted_bounded 0 c10resolver [c10profile]
    (.ok [c10event]) "u10" 50 []).1 _ hmem⟩
